import Mathlib

/-
Verification of the StoryBoarder image-grid engine
(`src/python/actions/action_image_grid.py`), shallowly embedded in Lean.

Modelling conventions:
* Python machine behaviour is embedded over `Nat`/`Int`; Python `//` on
  possibly-negative operands is `Int.fdiv` (floor division).
* Strings are handled over `List Char` (ASCII fragment: `\d` in a regular
  expression is `Char.isDigit`, `str.lower()` is `Char.toLower`,
  `str.strip()` trims `Char.isWhitespace`); Python compares strings by
  code point, embedded as comparison of `Char.toNat`.
* `PIL.Image.open` and file decoding are an environment parameter
  `Loader : String → Option (Nat × Nat)` giving the decoded image's
  (width, height); `none` is any load/decode failure.  A decoded image
  with a zero dimension makes the per-item code raise `ZeroDivisionError`,
  which the per-item `except` swallows, so it is treated as a failure too.
* Float expressions `int(x * 0.06)`, `int(x * 0.3)` and
  `int(cell_width / ratio)` are embedded as exact rational arithmetic
  truncated toward zero (`Nat` floor division on the non-negative values
  involved); for the integer magnitudes reachable here the double-precision
  computation agrees with the exact one.
* Writing the output PNG is represented by the `GridResult.saved`
  constructor carrying the would-be canvas; the early-return status
  strings are the other constructors.  A `saved` result is exactly the
  case in which the real function writes a file.
-/

namespace StoryBoarder

/-! ### `_natural_key` (action_image_grid.py lines 7-15)

`re.split(r"(\d+)", name)` yields the (possibly empty) non-digit stretches
interleaved with the captured maximal digit runs; each part is mapped to
`int(part)` when `part.isdigit()` and to `part.lower()` otherwise. -/

/-- One entry of a natural-sort key: a lowered non-digit run or a digit run
read as an integer. -/
inductive KeyPart where
  | str (s : List Char)
  | num (n : Nat)
deriving DecidableEq, Repr

/-- Python `str.isdigit()` on the ASCII fragment: non-empty and all digits. -/
def pyIsDigitStr (l : List Char) : Bool :=
  !l.isEmpty && l.all Char.isDigit

/-- Python `int(...)` on a non-empty string of decimal digits. -/
def natOfDigits (l : List Char) : Nat :=
  l.foldl (fun acc c => 10 * acc + (c.toNat - 48)) 0

/-- `re.split(r"(\d+)", ·)`, structurally recursive on a fuel argument so
that it evaluates inside the kernel.  Each step peels the maximal non-digit
run and then the maximal digit run; every step consumes at least one
character, so fuel `l.length` is never exhausted (at fuel 0 the list is
already empty and the 0-case coincides with the main case). -/
def splitNatRunsAux : Nat → List Char → List (List Char)
  | 0, l => [l.takeWhile (fun c => !c.isDigit)]
  | fuel + 1, l =>
    match l.dropWhile (fun c => !c.isDigit) with
    | [] => [l.takeWhile (fun c => !c.isDigit)]
    | a :: r' =>
      l.takeWhile (fun c => !c.isDigit) :: (a :: r').takeWhile Char.isDigit ::
        splitNatRunsAux fuel (r'.dropWhile Char.isDigit)

/-- `re.split(r"(\d+)", ·)`: alternating maximal runs, starting and ending
with a (possibly empty) non-digit run. -/
def splitNatRuns (l : List Char) : List (List Char) :=
  splitNatRunsAux l.length l

/-- The per-part mapping of `_natural_key`. -/
def partToKey (p : List Char) : KeyPart :=
  if pyIsDigitStr p then .num (natOfDigits p) else .str (p.map Char.toLower)

/-- `_natural_key(name)`. -/
def naturalKey (name : String) : List KeyPart :=
  (splitNatRuns name.toList).map partToKey

/-- `os.path.basename` (POSIX): the part after the last `/`. -/
def basename (s : String) : String :=
  String.mk ((s.toList.reverse.takeWhile (fun c => c ≠ '/')).reverse)

/-! Ordering of natural keys.  Python compares the key lists
lexicographically; two ints compare as integers, two strings by code
point.  An int/str comparison would raise `TypeError`, but between values
of `naturalKey` it never happens (theorem for claim C10): positions pair
up str-with-str and num-with-num.  To obtain a total comparison we fix
the unreachable mixed case arbitrarily (`num` before `str`). -/

/-- Code-point comparison of character runs (Python `str` `<`). -/
def strLtb : List Char → List Char → Bool
  | [], [] => false
  | [], _ :: _ => true
  | _ :: _, [] => false
  | a :: as, b :: bs =>
    if a < b then true
    else if b < a then false
    else strLtb as bs

/-- Strict comparison of key parts. -/
def partLt : KeyPart → KeyPart → Bool
  | .str a, .str b => strLtb a b
  | .num a, .num b => a < b
  | .num _, .str _ => true
  | .str _, .num _ => false

/-- Lexicographic strict comparison of key lists (Python list `<`). -/
def keyLt : List KeyPart → List KeyPart → Bool
  | [], [] => false
  | [], _ :: _ => true
  | _ :: _, [] => false
  | a :: as, b :: bs =>
    if partLt a b then true
    else if partLt b a then false
    else keyLt as bs

/-- Non-strict key comparison, as the sort uses it. -/
def keyLe (a b : List KeyPart) : Bool := !(keyLt b a)

/-! ### `_parse_hex_color` (lines 18-32) -/

/-- Python `str.strip()` (ASCII whitespace fragment). -/
def pyStrip (l : List Char) : List Char :=
  ((l.dropWhile Char.isWhitespace).reverse.dropWhile Char.isWhitespace).reverse

/-- Value of one hexadecimal digit, if it is one. -/
def hexDigitVal (c : Char) : Option Nat :=
  if '0' ≤ c ∧ c ≤ '9' then some (c.toNat - 48)
  else if 'a' ≤ c ∧ c ≤ 'f' then some (c.toNat - 87)
  else if 'A' ≤ c ∧ c ≤ 'F' then some (c.toNat - 55)
  else none

/-- Python `int(s, 16)` restricted to the two-character slices the code
feeds it: two hex digits, or a sign/space next to a single hex digit
(`int` tolerates surrounding whitespace and a sign); anything else raises
`ValueError`, i.e. `none`. -/
def pyIntHex2 (a b : Char) : Option Int :=
  match hexDigitVal a, hexDigitVal b with
  | some x, some y => some (16 * x + y)
  | some x, none => if b.isWhitespace then some x else none
  | none, some y =>
    if a = '+' ∨ a.isWhitespace then some y
    else if a = '-' then some (-(y : Int))
    else none
  | none, none => none

/-- RGBA colour with `Int` channels (Python would happily return a negative
channel for an input such as `"-f-f-f"`). -/
abbrev RGBA := Int × Int × Int × Int

/-- `_parse_hex_color(value, fallback)`.  `none` as first argument models a
non-string `value` (the `isinstance` guard). -/
def parseHexColor (value : Option String) (fallback : RGBA) : RGBA :=
  match value with
  | none => fallback
  | some v =>
    let text := (pyStrip v.toList).dropWhile (fun c => c = '#')
    let text := if text.length = 3 then text.flatMap (fun c => [c, c]) else text
    if text.length ≠ 6 then fallback
    else
      match pyIntHex2 (text.getD 0 ' ') (text.getD 1 ' '), pyIntHex2 (text.getD 2 ' ') (text.getD 3 ' '),
          pyIntHex2 (text.getD 4 ' ') (text.getD 5 ' ') with
      | some r, some g, some b => (r, g, b, 255)
      | _, _, _ => fallback

/-! ### `_parse_settings` (lines 35-144)

The claims under verification all concern the state of the settings after
the clamping block (lines 109-126); the duck-typed extraction from the
request dictionary (lines 52-107) only produces some assignment of these
local variables, so the model takes that assignment (`RawSettings`) as
input and embeds the clamping exactly. -/

structure RawSettings where
  columns : Int
  maxLongestEdge : Int
  backgroundColor : String
  padding : Int
  addLabels : Bool
  textColor : String
  tilePrefix : String
  tileWidth : Option Int
  tileHeight : Option Int
  fitMode : String
  outputDir : String
  outputNamePrefix : String
  outputPath : String
  tileOutlineColor : String
  tileOutlineWidth : Int
deriving Repr

/-- The defaults assigned at lines 36-50. -/
def defaultSettings : RawSettings where
  columns := 3
  maxLongestEdge := 4096
  backgroundColor := "#ffffff"
  padding := 32
  addLabels := true
  textColor := "#000000"
  tilePrefix := "SHOT"
  tileWidth := none
  tileHeight := none
  fitMode := "contain"
  outputDir := ""
  outputNamePrefix := "grid_overview"
  outputPath := ""
  tileOutlineColor := "#5079a5"
  tileOutlineWidth := 2

/-- Settings after the clamping block: numeric floors applied, degenerate
tile dimensions discarded. -/
structure GridConfig where
  columns : Nat
  maxLongestEdge : Nat
  backgroundColor : String
  padding : Nat
  addLabels : Bool
  textColor : String
  tilePrefix : String
  tileWidth : Option Nat
  tileHeight : Option Nat
  fitMode : String
  outputDir : String
  outputNamePrefix : String
  outputPath : String
  tileOutlineColor : String
  tileOutlineWidth : Nat
deriving Repr

/-- Lines 109-126 of `_parse_settings`. -/
def clampSettings (s : RawSettings) : GridConfig where
  columns := if s.columns < 1 then 1 else s.columns.toNat
  maxLongestEdge := if s.maxLongestEdge < 1 then 1 else s.maxLongestEdge.toNat
  backgroundColor := s.backgroundColor
  padding := if s.padding < 0 then 0 else s.padding.toNat
  addLabels := s.addLabels
  textColor := s.textColor
  tilePrefix :=
    let t := String.mk (pyStrip s.tilePrefix.toList)
    if t = "" then "SHOT" else t
  tileWidth := match s.tileWidth with
    | some w => if w < 1 then none else some w.toNat
    | none => none
  tileHeight := match s.tileHeight with
    | some h => if h < 1 then none else some h.toNat
    | none => none
  fitMode := if s.fitMode = "contain" ∨ s.fitMode = "cover" then s.fitMode else "contain"
  outputDir := s.outputDir
  outputNamePrefix := if s.outputNamePrefix = "" then "grid_overview" else s.outputNamePrefix
  outputPath := String.mk (pyStrip s.outputPath.toList)
  tileOutlineColor := s.tileOutlineColor
  tileOutlineWidth := if s.tileOutlineWidth < 0 then 0 else s.tileOutlineWidth.toNat

/-! ### `_normalize_items` (lines 157-174) -/

/-- One raw entry of the `items` list (or of `paths`): a dict with
optional `path`/`label` string fields, or a bare value coerced with
`str(item or "")`.  `none` stands for a missing key or a falsy value. -/
inductive RawItem where
  | record (path : Option String) (label : Option String)
  | plain (v : Option String)
deriving DecidableEq, Repr

/-- Which of the two input shapes the call carries: `data["items"]` when it
is a list, else the `paths` argument (entries of `paths` are bare values;
a non-list `paths` is the empty list, line 170). -/
inductive ItemsSource where
  | fromData (l : List RawItem)
  | fromPaths (l : List (Option String))
deriving Repr

/-- A normalized item. -/
structure NormItem where
  path : String
  label : String
deriving DecidableEq, Repr

/-- The default label `f"SHOT {idx + 1}"`. -/
def defaultLabel (idx : Nat) : String :=
  "SHOT " ++ toString (idx + 1)

/-- Normalization of a single entry at (0-based) index `idx`
(lines 162-168). -/
def normalizeItem (idx : Nat) : RawItem → NormItem
  | .record p l =>
    { path := String.mk (pyStrip (p.getD "").toList)
      label := match l with
        | some s => if s = "" then defaultLabel idx else s
        | none => defaultLabel idx }
  | .plain v =>
    { path := String.mk (pyStrip (v.getD "").toList)
      label := defaultLabel idx }

/-- The enumeration loop of `_normalize_items`. -/
def normalizeItemsAux (idx : Nat) : List RawItem → List NormItem
  | [] => []
  | it :: rest => normalizeItem idx it :: normalizeItemsAux (idx + 1) rest

/-- `_normalize_items(paths, data)`. -/
def normalizeItems : ItemsSource → List NormItem
  | .fromData l => normalizeItemsAux 0 l
  | .fromPaths l => normalizeItemsAux 0 (l.map .plain)

/-! ### `create_image_grid` (lines 192-319) -/

/-- The image-loading environment: `PIL.Image.open(path).convert("RGBA")`
either fails (`none`) or yields an image with the given (width, height). -/
abbrev Loader := String → Option (Nat × Nat)

/-- The per-item load attempt fails when the path is empty (no `open` is
attempted), when `Image.open` raises, or when a decoded dimension is zero
(the subsequent scale computation raises `ZeroDivisionError`); all of
these end with `tile = None` at line 244. -/
def loadFails (loader : Loader) (path : String) : Bool :=
  path = "" ||
    match loader path with
    | none => true
    | some (w, h) => w = 0 || h = 0

/-- `max(12, int(min(tile.width, tile.height) * 0.06))` (line 250). -/
def tileFontSize (w h : Nat) : Nat :=
  max 12 (6 * min w h / 100)

/-- `max(6, int(font_size * 0.3))` (line 258). -/
def labelMargin (fontSize : Nat) : Nat :=
  max 6 (3 * fontSize / 10)

/-- A rendered tile: its pixel dimensions, whether it is the fully
transparent placeholder, the label text drawn on it, and the label font
size and bottom-left margin when labels are enabled. -/
structure Tile where
  width : Nat
  height : Nat
  placeholder : Bool
  labelText : String
  fontSize : Option Nat
  margin : Option Nat
deriving DecidableEq, Repr

/-- Rendering of one item (lines 229-274).  `fixedTile` is
`some (tileWidth, tileHeight)` in fixed-tile mode.  In fixed mode a
successful load is fitted by `_fit_to_tile`, whose output is exactly
`(tileWidth, tileHeight)`; in dynamic mode it is resized to
`cellWidth × max(1, int(cell_width / (w / h)))`.  On failure the
placeholder measures `cell_width × (tile_height if tile_height else
cell_width)` (lines 244-246) — note that it consults `tile_height` alone,
not the fixed-tile mode. -/
def renderTile (loader : Loader) (c : GridConfig) (fixedTile : Option (Nat × Nat))
    (cellWidth : Nat) (labelText : String) (path : String) : Tile :=
  let dims : Nat × Nat × Bool :=
    if loadFails loader path then
      (cellWidth, c.tileHeight.getD cellWidth, true)
    else
      match loader path with
      | some (w, h) =>
        match fixedTile with
        | some (tw, th) => (tw, th, false)
        | none => (cellWidth, max 1 (cellWidth * h / w), false)
      | none => (cellWidth, c.tileHeight.getD cellWidth, true)
  { width := dims.1
    height := dims.2.1
    placeholder := dims.2.2
    labelText := labelText
    fontSize := if c.addLabels then some (tileFontSize dims.1 dims.2.1) else none
    margin := if c.addLabels then some (labelMargin (tileFontSize dims.1 dims.2.1)) else none }

/-- The rendering loop (lines 226-274), carrying the 0-based index used by
the label fallback `label_text = item["label"] if item["label"] else
f"{tile_prefix} {i + 1}"` (line 228). -/
def renderAll (loader : Loader) (c : GridConfig) (fixedTile : Option (Nat × Nat))
    (cellWidth : Nat) : Nat → List NormItem → List Tile
  | _, [] => []
  | i, it :: rest =>
    let lbl := if it.label = "" then c.tilePrefix ++ " " ++ toString (i + 1) else it.label
    renderTile loader c fixedTile cellWidth lbl it.path ::
      renderAll loader c fixedTile cellWidth (i + 1) rest

/-- Row grouping of the dynamic-mode second pass (lines 280-285): `k` tiles
per row, last row possibly short.  Structural in the list; matches the
`(idx + 1) % columns == 0 or idx == len(tiles) - 1` flushes for `k ≥ 1`. -/
def chunksOfAux (k : Nat) : Nat → List α → List (List α)
  | _, [] => []
  | 0, x :: xs => [x :: xs]
  | fuel + 1, x :: xs => (x :: xs.take (k - 1)) :: chunksOfAux k fuel (xs.drop (k - 1))

/-- Row grouping with fuel `l.length`, which each step's strictly shorter
remainder never exhausts (the fuel-0 case with a non-empty list is
unreachable). -/
def chunksOf (k : Nat) (l : List α) : List (List α) :=
  chunksOfAux k l.length l

/-- The natural sort at line 218:
`sorted(items, key=lambda p: _natural_key(os.path.basename(p["path"])))`.
Python's `sorted` is the stable sort by the key order; it is embedded as
insertion sort, which is also stable, and the two agree on every input. -/
def sortKey (it : NormItem) : List KeyPart :=
  naturalKey (basename it.path)

/-- The item order used by the sort, as a `Prop`-valued relation. -/
def ItemLe (x y : NormItem) : Prop :=
  keyLe (sortKey x) (sortKey y) = true

instance : DecidableRel ItemLe := fun x y => by
  unfold ItemLe; infer_instance

/-- `sorted(items, key=...)`. -/
def naturalSortItems (l : List NormItem) : List NormItem :=
  l.insertionSort ItemLe

/-- The composed canvas as `create_image_grid` would save it. -/
structure GridCanvas where
  cellWidth : Nat
  totalWidth : Nat
  totalHeight : Nat
  rowHeights : List Nat
  tiles : List Tile
  items : List NormItem
deriving DecidableEq, Repr

/-- Outcome of `create_image_grid`: one of the three early-return status
strings, or a saved file carrying the composed canvas (`saved` is exactly
the case in which a PNG is written, line 317). -/
inductive GridResult where
  | noImages
  | layoutTooSmall
  | noValidImages
  | saved (g : GridCanvas)
deriving DecidableEq, Repr

/-- Fixed-tile rows: `(len(items) + columns - 1) // columns` (line 213). -/
def fixedRowCount (c : GridConfig) (n : Nat) : Nat :=
  (n + c.columns - 1) / c.columns

/-- The fixed-tile branch (lines 209-216 and the shared tail): no sorting,
all geometry known up front. -/
def fixedModeResult (loader : Loader) (c : GridConfig) (items : List NormItem)
    (tw th : Nat) : GridResult :=
  let cellWidth := tw
  let rowCount := fixedRowCount c items.length
  let rowHeights := List.replicate rowCount th
  let totalWidth := c.padding + c.columns * (cellWidth + c.padding)
  let totalHeight := c.padding + rowCount * (th + c.padding)
  let tiles := renderAll loader c (some (tw, th)) cellWidth 0 items
  if tiles.isEmpty then .noValidImages
  else .saved { cellWidth, totalWidth, totalHeight, rowHeights, tiles, items }

/-- Dynamic-mode cell width
`(total_width - (columns + 1) * padding) // columns` (line 220), with
Python's floor division on a possibly negative numerator. -/
def dynCellWidth (c : GridConfig) : Int :=
  ((c.maxLongestEdge : Int) - ((c.columns : Int) + 1) * (c.padding : Int)).fdiv (c.columns : Int)

/-- The dynamic-width branch (lines 217-224 and the shared tail): natural
sort, early `LayoutTooSmall` return, two-pass row heights. -/
def dynamicModeResult (loader : Loader) (c : GridConfig) (items : List NormItem) : GridResult :=
  let sortedItems := naturalSortItems items
  let cw := dynCellWidth c
  if cw < 1 then .layoutTooSmall
  else
    let cellWidth := cw.toNat
    let tiles := renderAll loader c none cellWidth 0 sortedItems
    if tiles.isEmpty then .noValidImages
    else
      let rowHeights := (chunksOf c.columns tiles).map
        (fun r => (r.map Tile.height).foldl Nat.max 0)
      let totalHeight := c.padding * (rowHeights.length + 1) + rowHeights.foldl (· + ·) 0
      .saved { cellWidth, totalWidth := c.maxLongestEdge, totalHeight, rowHeights,
               tiles, items := sortedItems }

/-- `create_image_grid(paths, report_progress, data)` (the
`report_progress` parameter is unused by the source).  Geometry, ordering,
tile production and the early returns are embedded one-for-one; pixel
pasting and output-path resolution only affect the saved bytes and path,
not the returned structure.  Fixed-tile mode is selected by
`if tile_width and tile_height` (line 209), which after clamping means
both are present. -/
def createImageGrid (loader : Loader) (src : ItemsSource) (raw : RawSettings) : GridResult :=
  let c := clampSettings raw
  let items := normalizeItems src
  if items.isEmpty then .noImages
  else
    match c.tileWidth, c.tileHeight with
    | some tw, some th => fixedModeResult loader c items tw th
    | some _, none => dynamicModeResult loader c items
    | none, some _ => dynamicModeResult loader c items
    | none, none => dynamicModeResult loader c items

/-- Projection of the canvas from a `saved` result. -/
def savedCanvas? : GridResult → Option GridCanvas
  | .saved g => some g
  | _ => none

/-! ## Properties of the key order -/

theorem strLtb_irrefl (l : List Char) : strLtb l l = false := by
  induction l with
  | nil => rfl
  | cons a as ih => simp [strLtb, ih]

theorem strLtb_trans : ∀ {a b c : List Char},
    strLtb a b = true → strLtb b c = true → strLtb a c = true := by
  intro a
  induction a with
  | nil =>
    intro b c hab hbc
    cases b with
    | nil => exact hbc
    | cons y ys =>
      cases c with
      | nil => simp [strLtb] at hbc
      | cons z zs => rfl
  | cons x xs ih =>
    intro b c hab hbc
    cases b with
    | nil => simp [strLtb] at hab
    | cons y ys =>
      cases c with
      | nil => simp [strLtb] at hbc
      | cons z zs =>
        simp only [strLtb] at hab hbc ⊢
        by_cases hxy : x < y
        · by_cases hyz : y < z
          · simp [lt_trans hxy hyz]
          · simp [hyz] at hbc
            rcases hbc with ⟨hzy, _⟩
            have : y = z := le_antisymm hzy (not_lt.mp hyz)
            subst this
            simp [hxy]
        · simp [hxy] at hab
          rcases hab with ⟨hyx, hab⟩
          have hxy' : x = y := le_antisymm hyx (not_lt.mp hxy)
          subst hxy'
          by_cases hxz : x < z
          · simp [hxz]
          · simp [hxz] at hbc ⊢
            rcases hbc with ⟨hzx, hbc⟩
            exact ⟨hzx, ih hab hbc⟩

theorem strLtb_eq_of_not : ∀ {a b : List Char},
    strLtb a b = false → strLtb b a = false → a = b := by
  intro a
  induction a with
  | nil =>
    intro b hab _
    cases b with
    | nil => rfl
    | cons y ys => simp [strLtb] at hab
  | cons x xs ih =>
    intro b hab hba
    cases b with
    | nil => simp [strLtb] at hba
    | cons y ys =>
      simp only [strLtb] at hab hba
      by_cases hxy : x < y
      · simp [hxy] at hab
      · by_cases hyx : y < x
        · simp [hxy, hyx] at hab hba
        · have hxy' : x = y := le_antisymm (not_lt.mp hyx) (not_lt.mp hxy)
          subst hxy'
          simp [hxy, hyx] at hab hba
          rw [ih hab hba]

theorem partLt_irrefl (p : KeyPart) : partLt p p = false := by
  cases p with
  | str s => simp [partLt, strLtb_irrefl]
  | num n => simp [partLt]

theorem partLt_trans : ∀ {a b c : KeyPart},
    partLt a b = true → partLt b c = true → partLt a c = true := by
  intro a b c hab hbc
  cases a <;> cases b <;> cases c <;> simp_all [partLt]
  · exact strLtb_trans hab hbc
  · omega

theorem partLt_eq_of_not : ∀ {a b : KeyPart},
    partLt a b = false → partLt b a = false → a = b := by
  intro a b hab hba
  cases a <;> cases b <;> simp_all [partLt]
  · exact strLtb_eq_of_not hab hba
  · omega

theorem keyLt_irrefl (l : List KeyPart) : keyLt l l = false := by
  induction l with
  | nil => rfl
  | cons a as ih => simp [keyLt, partLt_irrefl, ih]

theorem keyLt_trans : ∀ {a b c : List KeyPart},
    keyLt a b = true → keyLt b c = true → keyLt a c = true := by
  intro a
  induction a with
  | nil =>
    intro b c hab hbc
    cases b with
    | nil => exact hbc
    | cons y ys =>
      cases c with
      | nil => simp [keyLt] at hbc
      | cons z zs => rfl
  | cons x xs ih =>
    intro b c hab hbc
    cases b with
    | nil => simp [keyLt] at hab
    | cons y ys =>
      cases c with
      | nil => simp [keyLt] at hbc
      | cons z zs =>
        simp only [keyLt] at hab hbc ⊢
        by_cases hxy : partLt x y = true
        · by_cases hyz : partLt y z = true
          · simp [partLt_trans hxy hyz]
          · simp [hyz] at hbc
            rcases hbc with ⟨hzy, _⟩
            have : y = z := partLt_eq_of_not (by simpa using hyz) hzy
            subst this
            simp [hxy]
        · simp [hxy] at hab
          rcases hab with ⟨hyx, hab⟩
          have hxy' : x = y := partLt_eq_of_not (by simpa using hxy) hyx
          subst hxy'
          by_cases hxz : partLt x z = true
          · simp [hxz]
          · simp [hxz] at hbc ⊢
            rcases hbc with ⟨hzx, hbc⟩
            exact ⟨hzx, ih hab hbc⟩

theorem keyLt_eq_of_not : ∀ {a b : List KeyPart},
    keyLt a b = false → keyLt b a = false → a = b := by
  intro a
  induction a with
  | nil =>
    intro b hab _
    cases b with
    | nil => rfl
    | cons y ys => simp [keyLt] at hab
  | cons x xs ih =>
    intro b hab hba
    cases b with
    | nil => simp [keyLt] at hba
    | cons y ys =>
      simp only [keyLt] at hab hba
      by_cases hxy : partLt x y = true
      · simp [hxy] at hab
      · by_cases hyx : partLt y x = true
        · simp [hxy, hyx] at hab hba
        · have hxy' : x = y := partLt_eq_of_not (by simpa using hxy) (by simpa using hyx)
          subst hxy'
          simp [hxy, hyx] at hab hba
          rw [ih hab hba]

theorem keyLt_asymm {a b : List KeyPart} (h : keyLt a b = true) : keyLt b a = false := by
  by_contra hba
  have hba' : keyLt b a = true := by
    cases hq : keyLt b a with
    | true => rfl
    | false => exact absurd hq hba
  have := keyLt_trans h hba'
  rw [keyLt_irrefl] at this
  simp at this

theorem itemLe_total : ∀ x y : NormItem, ItemLe x y ∨ ItemLe y x := by
  intro x y
  unfold ItemLe keyLe
  by_cases h : keyLt (sortKey y) (sortKey x) = true
  · right
    simp [keyLt_asymm h]
  · left
    simp [Bool.not_eq_true] at h
    simp [h]

theorem itemLe_trans : ∀ x y z : NormItem, ItemLe x y → ItemLe y z → ItemLe x z := by
  intro x y z hxy hyz
  unfold ItemLe keyLe at hxy hyz ⊢
  rw [Bool.not_eq_true'] at hxy hyz ⊢
  by_contra h
  have hzx : keyLt (sortKey z) (sortKey x) = true := by
    cases hq : keyLt (sortKey z) (sortKey x) with
    | true => rfl
    | false => exact absurd hq h
  by_cases hyz2 : keyLt (sortKey y) (sortKey z) = true
  · have := keyLt_trans hyz2 hzx
    rw [this] at hxy
    cases hxy
  · have heq : sortKey y = sortKey z :=
      keyLt_eq_of_not (by simpa using hyz2) hyz
    rw [heq] at hxy
    rw [hzx] at hxy
    cases hxy

instance : IsTotal NormItem ItemLe := ⟨itemLe_total⟩

instance : IsTrans NormItem ItemLe := ⟨itemLe_trans⟩

theorem itemLe_refl (x : NormItem) : ItemLe x x := by
  unfold ItemLe keyLe
  simp [keyLt_irrefl]

theorem itemLe_of_sortKey_eq {x y : NormItem} (h : sortKey x = sortKey y) : ItemLe x y := by
  unfold ItemLe keyLe
  rw [← h]
  simp [keyLt_irrefl]

/-! ## Alternation of the split runs (towards claim C10) -/

/-- A run containing no decimal digit. -/
def noDigitRun (p : List Char) : Bool := p.all (fun c => !c.isDigit)

/-- Whether a key part is an integer run. -/
def isNumPart : KeyPart → Bool
  | .num _ => true
  | .str _ => false

theorem dropWhile_head_not {p : Char → Bool} :
    ∀ (l : List Char) {a : Char} {r : List Char}, List.dropWhile p l = a :: r → p a = false := by
  intro l
  induction l with
  | nil => intro a r h; simp [List.dropWhile] at h
  | cons x xs ih =>
    intro a r h
    rw [List.dropWhile_cons] at h
    by_cases hx : p x = true
    · rw [if_pos hx] at h
      exact ih h
    · rw [if_neg hx] at h
      cases h
      simpa using hx

theorem noDigitRun_takeWhile (l : List Char) :
    noDigitRun (l.takeWhile (fun c => !c.isDigit)) = true := by
  unfold noDigitRun
  rw [List.all_eq_true]
  intro c hc
  simpa using List.mem_takeWhile_imp hc

theorem pyIsDigitStr_takeWhile (a : Char) (r : List Char) (ha : a.isDigit = true) :
    pyIsDigitStr ((a :: r).takeWhile Char.isDigit) = true := by
  rw [List.takeWhile_cons_of_pos ha]
  unfold pyIsDigitStr
  simp only [List.isEmpty_cons, Bool.not_false, Bool.true_and]
  rw [List.all_eq_true]
  intro c hc
  rcases List.mem_cons.mp hc with h | h
  · rw [h]; exact ha
  · exact List.mem_takeWhile_imp h

theorem pyIsDigitStr_of_noDigit {p : List Char} (h : noDigitRun p = true) :
    pyIsDigitStr p = false := by
  cases p with
  | nil => rfl
  | cons c cs =>
    unfold noDigitRun at h
    rw [List.all_eq_true] at h
    have hc : c.isDigit = false := by
      simpa using h c (List.mem_cons_self c cs)
    unfold pyIsDigitStr
    simp [List.all_cons, hc]

/-- Every run produced by the splitter is a non-digit run at even index and
a non-empty digit run at odd index. -/
theorem splitNatRunsAux_alternates :
    ∀ (fuel : Nat) (l : List Char) (i : Nat), i < (splitNatRunsAux fuel l).length →
      (if i % 2 = 1 then pyIsDigitStr ((splitNatRunsAux fuel l).getD i [])
       else noDigitRun ((splitNatRunsAux fuel l).getD i [])) = true := by
  intro fuel
  induction fuel with
  | zero =>
    intro l i h
    simp only [splitNatRunsAux, List.length_singleton] at h
    have hi : i = 0 := by omega
    subst hi
    simpa [splitNatRunsAux] using noDigitRun_takeWhile l
  | succ fuel ih =>
    intro l i h
    rcases hr : l.dropWhile (fun c => !c.isDigit) with _ | ⟨a, r'⟩
    · simp only [splitNatRunsAux, hr, List.length_singleton] at h
      have hi : i = 0 := by omega
      subst hi
      simpa [splitNatRunsAux, hr] using noDigitRun_takeWhile l
    · have ha : a.isDigit = true := by
        simpa using dropWhile_head_not l hr
      simp only [splitNatRunsAux, hr, List.length_cons] at h ⊢
      match i with
      | 0 => simpa using noDigitRun_takeWhile l
      | 1 => simpa using pyIsDigitStr_takeWhile a r' ha
      | (j + 2) =>
        have hj : j < (splitNatRunsAux fuel (r'.dropWhile Char.isDigit)).length := by
          omega
        have hmod : (j + 2) % 2 = j % 2 := by omega
        have hres := ih (r'.dropWhile Char.isDigit) j hj
        simpa [hmod, List.getD_cons_succ] using hres

theorem isNumPart_partToKey (p : List Char) :
    isNumPart (partToKey p) = pyIsDigitStr p := by
  unfold partToKey
  by_cases h : pyIsDigitStr p = true
  · simp [h, isNumPart]
  · simp only [Bool.not_eq_true] at h
    simp [h, isNumPart]

/-- Restatement of the alternation lemma for `splitNatRuns`. -/
theorem splitNatRuns_alternates (l : List Char) (i : Nat) (h : i < (splitNatRuns l).length) :
    (if i % 2 = 1 then pyIsDigitStr ((splitNatRuns l).getD i [])
     else noDigitRun ((splitNatRuns l).getD i [])) = true :=
  splitNatRunsAux_alternates l.length l i h

/-- Index-type lemma for `naturalKey`: integer parts sit exactly at odd
indices. -/
theorem naturalKey_isNumPart (s : String) (i : Nat) (h : i < (naturalKey s).length) :
    isNumPart ((naturalKey s).getD i (.str [])) = decide (i % 2 = 1) := by
  have hlen : i < (splitNatRuns s.toList).length := by
    simpa [naturalKey] using h
  have hget : (naturalKey s).getD i (.str [])
      = partToKey ((splitNatRuns s.toList).getD i []) := by
    unfold naturalKey
    rw [List.getD_eq_getElem?_getD, List.getElem?_map, List.getElem?_eq_getElem hlen]
    rw [List.getD_eq_getElem?_getD, List.getElem?_eq_getElem hlen]
    rfl
  rw [hget, isNumPart_partToKey]
  have halt := splitNatRuns_alternates s.toList i hlen
  by_cases hodd : i % 2 = 1
  · rw [if_pos hodd] at halt
    rw [halt, hodd]
    rfl
  · rw [if_neg hodd] at halt
    rw [pyIsDigitStr_of_noDigit halt]
    simp [hodd]

/-- Claim C10: natural-sort keys are pairwise comparable — at every index
both lists hold an integer run or both hold a string run, because the
splitter alternates non-digit runs (even index) with digit runs (odd
index); the embedded sort is therefore total and Python's `TypeError`
comparison failure cannot occur. -/
theorem naturalKey_type_alignment :
    (∀ (s : String) (i : Nat), i < (naturalKey s).length →
      isNumPart ((naturalKey s).getD i (.str [])) = decide (i % 2 = 1)) ∧
    (∀ (s t : String) (i : Nat), i < (naturalKey s).length → i < (naturalKey t).length →
      isNumPart ((naturalKey s).getD i (.str [])) = isNumPart ((naturalKey t).getD i (.str []))) := by
  constructor
  · exact naturalKey_isNumPart
  · intro s t i hs ht
    rw [naturalKey_isNumPart s i hs, naturalKey_isNumPart t i ht]

/-- Witness for C10 at concrete inputs. -/
theorem naturalKey_type_alignment_witness :
    isNumPart ((naturalKey "img2.png").getD 1 (.str [])) = decide (1 % 2 = 1) ∧
    isNumPart ((naturalKey "img2.png").getD 1 (.str []))
      = isNumPart ((naturalKey "a10b.png").getD 1 (.str [])) :=
  ⟨naturalKey_type_alignment.1 "img2.png" 1 (by decide),
   naturalKey_type_alignment.2 "img2.png" "a10b.png" 1 (by decide) (by decide)⟩

/-- Claim C6: the natural sort orders items by the `_natural_key` of the
path's base name — digit runs as integers, non-digit runs lowered, compared
lexicographically (`ItemLe`) — it permutes the input, it is stable (the
items carrying any fixed key keep their original relative order), and the
spec's example sorts as stated. -/
theorem natural_sort_correct :
    ((naturalSortItems
        [⟨"img2.png", "SHOT 1"⟩, ⟨"img10.png", "SHOT 2"⟩, ⟨"img1.png", "SHOT 3"⟩]).map NormItem.path
      = ["img1.png", "img2.png", "img10.png"]) ∧
    (∀ l : List NormItem,
      (naturalSortItems l).Perm l ∧
      List.Sorted ItemLe (naturalSortItems l) ∧
      (∀ k : List KeyPart,
        (naturalSortItems l).filter (fun x => decide (sortKey x = k))
          = l.filter (fun x => decide (sortKey x = k)))) := by
  refine ⟨by decide, fun l => ⟨List.perm_insertionSort ItemLe l, List.sorted_insertionSort ItemLe l, ?_⟩⟩
  intro k
  have hpair : (l.filter (fun x => decide (sortKey x = k))).Pairwise ItemLe := by
    refine List.pairwise_of_forall_mem_list ?_
    intro a ha b hb
    have ha' : sortKey a = k := by simpa using (List.mem_filter.mp ha).2
    have hb' : sortKey b = k := by simpa using (List.mem_filter.mp hb).2
    exact itemLe_of_sortKey_eq (ha'.trans hb'.symm)
  have hsub : List.Sublist (l.filter (fun x => decide (sortKey x = k))) (naturalSortItems l) :=
    List.sublist_insertionSort hpair (List.filter_sublist l)
  have hsub2 : List.Sublist
      ((l.filter (fun x => decide (sortKey x = k))).filter (fun x => decide (sortKey x = k)))
      ((naturalSortItems l).filter (fun x => decide (sortKey x = k))) :=
    hsub.filter _
  rw [List.filter_eq_self.mpr (fun a ha => (List.mem_filter.mp ha).2)] at hsub2
  have hlen : ((naturalSortItems l).filter (fun x => decide (sortKey x = k))).length
      = (l.filter (fun x => decide (sortKey x = k))).length :=
    ((List.perm_insertionSort ItemLe l).filter _).length_eq
  exact (hsub2.eq_of_length hlen.symm).symm

/-! ## Helper lemmas about the grid pipeline -/

theorem renderAll_length (loader : Loader) (c : GridConfig) (f : Option (Nat × Nat))
    (cw : Nat) : ∀ (i : Nat) (items : List NormItem),
    (renderAll loader c f cw i items).length = items.length := by
  intro i items
  induction items generalizing i with
  | nil => rfl
  | cons it rest ih => simp [renderAll, ih]

theorem renderAll_ne_nil (loader : Loader) (c : GridConfig) (f : Option (Nat × Nat))
    (cw i : Nat) (items : List NormItem) (hne : items ≠ []) :
    renderAll loader c f cw i items ≠ [] := by
  intro hcontra
  apply hne
  have hlen := renderAll_length loader c f cw i items
  rw [hcontra] at hlen
  exact List.length_eq_zero.mp hlen.symm

theorem renderTile_of_fail (loader : Loader) (c : GridConfig) (f : Option (Nat × Nat))
    (cw : Nat) (lbl path : String) (h : loadFails loader path = true) :
    renderTile loader c f cw lbl path =
      { width := cw, height := c.tileHeight.getD cw, placeholder := true, labelText := lbl,
        fontSize := if c.addLabels then some (tileFontSize cw (c.tileHeight.getD cw)) else none,
        margin := if c.addLabels then some (labelMargin (tileFontSize cw (c.tileHeight.getD cw))) else none } := by
  simp [renderTile, h]

theorem renderTile_metrics (loader : Loader) (c : GridConfig) (f : Option (Nat × Nat))
    (cw : Nat) (lbl path : String) :
    (renderTile loader c f cw lbl path).fontSize
        = (if c.addLabels then
            some (tileFontSize (renderTile loader c f cw lbl path).width
              (renderTile loader c f cw lbl path).height) else none) ∧
      (renderTile loader c f cw lbl path).margin
        = (if c.addLabels then
            some (labelMargin (tileFontSize (renderTile loader c f cw lbl path).width
              (renderTile loader c f cw lbl path).height)) else none) :=
  ⟨rfl, rfl⟩

theorem renderAll_placeholder_forall2 (loader : Loader) (c : GridConfig)
    (f : Option (Nat × Nat)) (cw : Nat) : ∀ (i : Nat) (items : List NormItem),
    List.Forall₂ (fun (it : NormItem) (t : Tile) =>
      loadFails loader it.path = true →
        t.placeholder = true ∧ t.width = cw ∧ t.height = c.tileHeight.getD cw)
      items (renderAll loader c f cw i items) := by
  intro i items
  induction items generalizing i with
  | nil => exact List.Forall₂.nil
  | cons it rest ih =>
    refine List.Forall₂.cons ?_ (ih (i + 1))
    intro hfail
    rw [renderTile_of_fail loader c f cw _ _ hfail]
    exact ⟨rfl, rfl, rfl⟩

theorem renderAll_all_placeholder (loader : Loader) (c : GridConfig)
    (f : Option (Nat × Nat)) (cw : Nat) : ∀ (i : Nat) (items : List NormItem),
    (∀ it ∈ items, loadFails loader it.path = true) →
    ∀ t ∈ renderAll loader c f cw i items, t.placeholder = true := by
  intro i items
  induction items generalizing i with
  | nil => intro _ t ht; simp [renderAll] at ht
  | cons it rest ih =>
    intro hall t ht
    rcases List.mem_cons.mp ht with h | h
    · subst h
      rw [renderTile_of_fail loader c f cw _ _ (hall it (List.mem_cons_self it rest))]
    · exact ih (i + 1) (fun x hx => hall x (List.mem_cons_of_mem it hx)) t h

theorem renderAll_metrics (loader : Loader) (c : GridConfig)
    (f : Option (Nat × Nat)) (cw : Nat) : ∀ (i : Nat) (items : List NormItem),
    ∀ t ∈ renderAll loader c f cw i items,
      t.fontSize = (if c.addLabels then some (tileFontSize t.width t.height) else none) ∧
      t.margin = (if c.addLabels then some (labelMargin (tileFontSize t.width t.height)) else none) := by
  intro i items
  induction items generalizing i with
  | nil => intro t ht; simp [renderAll] at ht
  | cons it rest ih =>
    intro t ht
    rcases List.mem_cons.mp ht with h | h
    · subst h
      exact renderTile_metrics loader c f cw _ _
    · exact ih (i + 1) t h

theorem clampSettings_columns_pos (raw : RawSettings) : 1 ≤ (clampSettings raw).columns := by
  show 1 ≤ (if raw.columns < 1 then 1 else raw.columns.toNat)
  split
  · exact le_refl 1
  · omega

theorem naturalSortItems_length (l : List NormItem) :
    (naturalSortItems l).length = l.length :=
  List.length_insertionSort ItemLe l

theorem naturalSortItems_ne_nil (l : List NormItem) (hne : l ≠ []) :
    naturalSortItems l ≠ [] := by
  intro hcontra
  apply hne
  have := naturalSortItems_length l
  rw [hcontra] at this
  exact List.length_eq_zero.mp this.symm

theorem createImageGrid_fixed (loader : Loader) (src : ItemsSource) (raw : RawSettings)
    (tw th : Nat) (hw : (clampSettings raw).tileWidth = some tw)
    (hh : (clampSettings raw).tileHeight = some th) (hne : normalizeItems src ≠ []) :
    createImageGrid loader src raw
      = fixedModeResult loader (clampSettings raw) (normalizeItems src) tw th := by
  have hie : (normalizeItems src).isEmpty = false := by
    simpa [List.isEmpty_iff] using hne
  unfold createImageGrid
  simp only [hie, hw, hh]
  rfl

theorem createImageGrid_dynamic (loader : Loader) (src : ItemsSource) (raw : RawSettings)
    (hdyn : (clampSettings raw).tileWidth = none ∨ (clampSettings raw).tileHeight = none)
    (hne : normalizeItems src ≠ []) :
    createImageGrid loader src raw
      = dynamicModeResult loader (clampSettings raw) (normalizeItems src) := by
  have hie : (normalizeItems src).isEmpty = false := by
    simpa [List.isEmpty_iff] using hne
  unfold createImageGrid
  rcases hdyn with hw | hh
  · cases hh' : (clampSettings raw).tileHeight <;> simp [hie, hw, hh']
  · cases hw' : (clampSettings raw).tileWidth <;> simp [hie, hw', hh]

theorem fixedModeResult_eq (loader : Loader) (c : GridConfig) (items : List NormItem)
    (tw th : Nat) (hne : items ≠ []) :
    fixedModeResult loader c items tw th = .saved {
      cellWidth := tw,
      totalWidth := c.padding + c.columns * (tw + c.padding),
      totalHeight := c.padding + fixedRowCount c items.length * (th + c.padding),
      rowHeights := List.replicate (fixedRowCount c items.length) th,
      tiles := renderAll loader c (some (tw, th)) tw 0 items,
      items := items } := by
  have hie : (renderAll loader c (some (tw, th)) tw 0 items).isEmpty = false := by
    simpa [List.isEmpty_iff] using renderAll_ne_nil loader c (some (tw, th)) tw 0 items hne
  simp [fixedModeResult, hie]

theorem dynamicModeResult_tooSmall (loader : Loader) (c : GridConfig) (items : List NormItem)
    (h : dynCellWidth c < 1) :
    dynamicModeResult loader c items = .layoutTooSmall := by
  simp [dynamicModeResult, h]

theorem dynamicModeResult_saved (loader : Loader) (c : GridConfig) (items : List NormItem)
    (h : ¬ dynCellWidth c < 1) (hne : items ≠ []) :
    dynamicModeResult loader c items = .saved {
      cellWidth := (dynCellWidth c).toNat,
      totalWidth := c.maxLongestEdge,
      totalHeight :=
        c.padding * (((chunksOf c.columns
            (renderAll loader c none (dynCellWidth c).toNat 0 (naturalSortItems items))).map
          (fun r => (r.map Tile.height).foldl Nat.max 0)).length + 1)
          + ((chunksOf c.columns
              (renderAll loader c none (dynCellWidth c).toNat 0 (naturalSortItems items))).map
            (fun r => (r.map Tile.height).foldl Nat.max 0)).foldl (· + ·) 0,
      rowHeights := (chunksOf c.columns
          (renderAll loader c none (dynCellWidth c).toNat 0 (naturalSortItems items))).map
        (fun r => (r.map Tile.height).foldl Nat.max 0),
      tiles := renderAll loader c none (dynCellWidth c).toNat 0 (naturalSortItems items),
      items := naturalSortItems items } := by
  have hie : (renderAll loader c none (dynCellWidth c).toNat 0 (naturalSortItems items)).isEmpty = false := by
    simpa [List.isEmpty_iff] using
      renderAll_ne_nil loader c none (dynCellWidth c).toNat 0 (naturalSortItems items)
        (naturalSortItems_ne_nil items hne)
  simp [dynamicModeResult, h, hie]

/-! ## Concrete configurations used by witnesses and counterexamples -/

/-- `columns=5, maxLongestEdge=10, padding=32` (claim C3's example). -/
def tooSmallSettings : RawSettings :=
  { defaultSettings with columns := 5, maxLongestEdge := 10, padding := 32 }

/-- `tileWidth=200, tileHeight=150, columns=2, padding=10` (claim C4's
example). -/
def fixedDemoSettings : RawSettings :=
  { defaultSettings with tileWidth := some 200, tileHeight := some 150,
                         columns := 2, padding := 10 }

/-! ## Claim C3 -/

/-- Claim C3: in dynamic-width mode with a non-empty item list, when the
cell width `(maxLongestEdge - (columns+1)*padding) // columns`
(`dynCellWidth`, Python floor division) is below 1, the call returns the
layout-too-small status; the result does not depend on the image loader
(no image is opened) and is not `saved` (no file is written). -/
theorem dynamic_layout_too_small (loader loader2 : Loader) (src : ItemsSource)
    (raw : RawSettings)
    (hdyn : (clampSettings raw).tileWidth = none ∨ (clampSettings raw).tileHeight = none)
    (hne : normalizeItems src ≠ [])
    (hcw : dynCellWidth (clampSettings raw) < 1) :
    createImageGrid loader src raw = .layoutTooSmall ∧
      createImageGrid loader src raw = createImageGrid loader2 src raw := by
  have h1 := (createImageGrid_dynamic loader src raw hdyn hne).trans
    (dynamicModeResult_tooSmall loader (clampSettings raw) (normalizeItems src) hcw)
  have h2 := (createImageGrid_dynamic loader2 src raw hdyn hne).trans
    (dynamicModeResult_tooSmall loader2 (clampSettings raw) (normalizeItems src) hcw)
  exact ⟨h1, h1.trans h2.symm⟩

/-- Witness for C3 at the example configuration. -/
theorem dynamic_layout_too_small_witness :
    createImageGrid (fun _ => some (10, 10)) (.fromPaths [some "a.png"]) tooSmallSettings
        = .layoutTooSmall ∧
      createImageGrid (fun _ => some (10, 10)) (.fromPaths [some "a.png"]) tooSmallSettings
        = createImageGrid (fun _ => none) (.fromPaths [some "a.png"]) tooSmallSettings :=
  dynamic_layout_too_small (fun _ => some (10, 10)) (fun _ => none)
    (.fromPaths [some "a.png"]) tooSmallSettings (Or.inl (by decide)) (by decide) (by decide)

/-! ## Claim C4 -/

/-- Claim C4: in fixed-tile mode the cell width is `tileWidth`, every row
height is `tileHeight`, the row count is `(n + columns - 1) / columns` —
which is `ceil(n / columns)`, certified by the two inequalities — and the
canvas measures `padding + columns*(cellWidth+padding)` by
`padding + rows*(tileHeight+padding)`. -/
theorem fixed_mode_geometry (loader : Loader) (src : ItemsSource) (raw : RawSettings)
    (tw th : Nat) (hw : (clampSettings raw).tileWidth = some tw)
    (hh : (clampSettings raw).tileHeight = some th)
    (hne : normalizeItems src ≠ []) :
    ∃ g : GridCanvas, createImageGrid loader src raw = .saved g ∧
      g.cellWidth = tw ∧
      g.rowHeights = List.replicate (fixedRowCount (clampSettings raw) (normalizeItems src).length) th ∧
      g.totalWidth = (clampSettings raw).padding
        + (clampSettings raw).columns * (tw + (clampSettings raw).padding) ∧
      g.totalHeight = (clampSettings raw).padding
        + fixedRowCount (clampSettings raw) (normalizeItems src).length * (th + (clampSettings raw).padding) ∧
      fixedRowCount (clampSettings raw) (normalizeItems src).length
        = ((normalizeItems src).length + (clampSettings raw).columns - 1) / (clampSettings raw).columns ∧
      (normalizeItems src).length
        ≤ (clampSettings raw).columns * fixedRowCount (clampSettings raw) (normalizeItems src).length ∧
      (clampSettings raw).columns * fixedRowCount (clampSettings raw) (normalizeItems src).length
        < (normalizeItems src).length + (clampSettings raw).columns := by
  have hcol := clampSettings_columns_pos raw
  have hn : 0 < (normalizeItems src).length := List.length_pos.mpr hne
  refine ⟨_, (createImageGrid_fixed loader src raw tw th hw hh hne).trans
      (fixedModeResult_eq loader (clampSettings raw) (normalizeItems src) tw th hne),
    rfl, rfl, rfl, rfl, rfl, ?_, ?_⟩
  all_goals
    unfold fixedRowCount
    have hdm := Nat.div_add_mod
      ((normalizeItems src).length + (clampSettings raw).columns - 1) (clampSettings raw).columns
    have hml : ((normalizeItems src).length + (clampSettings raw).columns - 1)
        % (clampSettings raw).columns < (clampSettings raw).columns :=
      Nat.mod_lt _ (by omega)
    omega

/-- Witness for C4: the example layout (3 items, 200x150 tiles, 2 columns,
padding 10) gives 2 rows and a 430x330 canvas. -/
theorem fixed_mode_geometry_witness :
    (∃ g : GridCanvas,
      createImageGrid (fun _ => some (640, 480))
          (.fromPaths [some "a.png", some "b.png", some "c.png"]) fixedDemoSettings = .saved g ∧
        g.cellWidth = 200 ∧
        g.rowHeights = List.replicate
          (fixedRowCount (clampSettings fixedDemoSettings) 3) 150 ∧
        g.totalWidth = 430 ∧ g.totalHeight = 330) ∧
    (savedCanvas? (createImageGrid (fun _ => some (640, 480))
        (.fromPaths [some "a.png", some "b.png", some "c.png"]) fixedDemoSettings)).map
      (fun g => (g.totalWidth, g.totalHeight, g.rowHeights)) = some (430, 330, [150, 150]) := by
  constructor
  · obtain ⟨g, hg, hcw, hrh, htw, hth, -⟩ :=
      fixed_mode_geometry (fun _ => some (640, 480))
        (.fromPaths [some "a.png", some "b.png", some "c.png"]) fixedDemoSettings 200 150
        (by decide) (by decide) (by decide)
    exact ⟨g, hg, hcw, by simpa using hrh, by simpa using htw, by simpa using hth⟩
  · decide

/-! ## Claim C7 -/

/-- Claim C7: natural sorting is applied iff fixed-tile mode is disabled.
In fixed-tile mode a saved grid renders and composites the normalized
items in exactly their input order; in dynamic mode it uses the natural
sort of that list. -/
theorem sort_iff_dynamic_mode :
    (∀ (loader : Loader) (src : ItemsSource) (raw : RawSettings) (tw th : Nat) (g : GridCanvas),
      (clampSettings raw).tileWidth = some tw →
      (clampSettings raw).tileHeight = some th →
      createImageGrid loader src raw = .saved g →
      g.items = normalizeItems src ∧
        g.tiles = renderAll loader (clampSettings raw) (some (tw, th)) tw 0 (normalizeItems src)) ∧
    (∀ (loader : Loader) (src : ItemsSource) (raw : RawSettings) (g : GridCanvas),
      ((clampSettings raw).tileWidth = none ∨ (clampSettings raw).tileHeight = none) →
      createImageGrid loader src raw = .saved g →
      g.items = naturalSortItems (normalizeItems src)) := by
  constructor
  · intro loader src raw tw th g hw hh hsav
    by_cases hne : normalizeItems src = []
    · have hno : createImageGrid loader src raw = .noImages := by
        unfold createImageGrid
        simp [hne]
      rw [hno] at hsav
      cases hsav
    · rw [(createImageGrid_fixed loader src raw tw th hw hh hne).trans
        (fixedModeResult_eq loader (clampSettings raw) (normalizeItems src) tw th hne)] at hsav
      cases hsav
      exact ⟨rfl, rfl⟩
  · intro loader src raw g hdyn hsav
    by_cases hne : normalizeItems src = []
    · have hno : createImageGrid loader src raw = .noImages := by
        unfold createImageGrid
        simp [hne]
      rw [hno] at hsav
      cases hsav
    · rw [createImageGrid_dynamic loader src raw hdyn hne] at hsav
      by_cases hcw : dynCellWidth (clampSettings raw) < 1
      · rw [dynamicModeResult_tooSmall loader (clampSettings raw) (normalizeItems src) hcw] at hsav
        cases hsav
      · rw [dynamicModeResult_saved loader (clampSettings raw) (normalizeItems src) hcw hne] at hsav
        cases hsav
        rfl

/-- Witness for C7: a fixed-mode call keeps the deliberately unsorted
input order, a dynamic-mode call sorts it. -/
theorem sort_iff_dynamic_mode_witness :
    (∃ g : GridCanvas,
      createImageGrid (fun _ => none) (.fromPaths [some "img2.png", some "img1.png"]) fixedDemoSettings
          = .saved g ∧
        g.items = normalizeItems (.fromPaths [some "img2.png", some "img1.png"])) ∧
    (∃ g : GridCanvas,
      createImageGrid (fun _ => none) (.fromPaths [some "img2.png", some "img1.png"]) defaultSettings
          = .saved g ∧
        g.items = naturalSortItems (normalizeItems (.fromPaths [some "img2.png", some "img1.png"]))) := by
  constructor
  · match hg : createImageGrid (fun _ => none) (.fromPaths [some "img2.png", some "img1.png"]) fixedDemoSettings with
    | .saved g =>
      exact ⟨g, rfl, (sort_iff_dynamic_mode.1 _ _ _ 200 150 g (by decide) (by decide) hg).1⟩
    | .noImages => exact absurd hg (by decide)
    | .layoutTooSmall => exact absurd hg (by decide)
    | .noValidImages => exact absurd hg (by decide)
  · match hg : createImageGrid (fun _ => none) (.fromPaths [some "img2.png", some "img1.png"]) defaultSettings with
    | .saved g =>
      exact ⟨g, rfl, sort_iff_dynamic_mode.2 _ _ _ g (Or.inl (by decide)) hg⟩
    | .noImages => exact absurd hg (by decide)
    | .layoutTooSmall => exact absurd hg (by decide)
    | .noValidImages => exact absurd hg (by decide)

/-! ## Claim C1 -/

/-- Counterexample to claim C1: a non-empty item list whose single item's
load fails does not return "No valid images to process." — the item
becomes a placeholder tile and the grid is still composed and saved. -/
theorem no_valid_images_counterexample :
    loadFails (fun _ => none) "x.png" = true ∧
    createImageGrid (fun _ => none) (.fromPaths [some "x.png"]) defaultSettings
        ≠ .noValidImages ∧
    (savedCanvas? (createImageGrid (fun _ => none) (.fromPaths [some "x.png"]) defaultSettings)).isSome
        = true := by
  decide

/-- Claim C1 as amended: the "No valid images to process." branch is
unreachable — every failed item is appended as a placeholder tile, so for
a non-empty item list in which every load fails the grid is still composed
of placeholder tiles and saved (unless the dynamic layout is too small). -/
theorem all_failures_still_saved :
    (∀ (loader : Loader) (src : ItemsSource) (raw : RawSettings),
      createImageGrid loader src raw ≠ .noValidImages) ∧
    (∀ (loader : Loader) (src : ItemsSource) (raw : RawSettings),
      normalizeItems src ≠ [] →
      (∀ it ∈ normalizeItems src, loadFails loader it.path = true) →
      createImageGrid loader src raw = .layoutTooSmall ∨
        ∃ g : GridCanvas, createImageGrid loader src raw = .saved g ∧
          g.tiles.length = (normalizeItems src).length ∧
          ∀ t ∈ g.tiles, t.placeholder = true) := by
  constructor
  · intro loader src raw
    by_cases hne : normalizeItems src = []
    · have hno : createImageGrid loader src raw = .noImages := by
        unfold createImageGrid
        simp [hne]
      simp [hno]
    · cases hw : (clampSettings raw).tileWidth with
      | some tw =>
        cases hh : (clampSettings raw).tileHeight with
        | some th =>
          rw [(createImageGrid_fixed loader src raw tw th hw hh hne).trans
            (fixedModeResult_eq loader (clampSettings raw) (normalizeItems src) tw th hne)]
          simp
        | none =>
          rw [createImageGrid_dynamic loader src raw (Or.inr hh) hne]
          by_cases hcw : dynCellWidth (clampSettings raw) < 1
          · rw [dynamicModeResult_tooSmall loader (clampSettings raw) (normalizeItems src) hcw]
            simp
          · rw [dynamicModeResult_saved loader (clampSettings raw) (normalizeItems src) hcw hne]
            simp
      | none =>
        rw [createImageGrid_dynamic loader src raw (Or.inl hw) hne]
        by_cases hcw : dynCellWidth (clampSettings raw) < 1
        · rw [dynamicModeResult_tooSmall loader (clampSettings raw) (normalizeItems src) hcw]
          simp
        · rw [dynamicModeResult_saved loader (clampSettings raw) (normalizeItems src) hcw hne]
          simp
  · intro loader src raw hne hall
    cases hw : (clampSettings raw).tileWidth with
    | some tw =>
      cases hh : (clampSettings raw).tileHeight with
      | some th =>
        right
        refine ⟨_, (createImageGrid_fixed loader src raw tw th hw hh hne).trans
          (fixedModeResult_eq loader (clampSettings raw) (normalizeItems src) tw th hne), ?_, ?_⟩
        · exact renderAll_length loader (clampSettings raw) (some (tw, th)) tw 0 (normalizeItems src)
        · exact renderAll_all_placeholder loader (clampSettings raw) (some (tw, th)) tw 0
            (normalizeItems src) hall
      | none =>
        rw [createImageGrid_dynamic loader src raw (Or.inr hh) hne]
        by_cases hcw : dynCellWidth (clampSettings raw) < 1
        · exact Or.inl (dynamicModeResult_tooSmall loader (clampSettings raw) (normalizeItems src) hcw)
        · right
          refine ⟨_, dynamicModeResult_saved loader (clampSettings raw) (normalizeItems src) hcw hne,
            ?_, ?_⟩
          · rw [renderAll_length loader (clampSettings raw) none (dynCellWidth (clampSettings raw)).toNat 0
              (naturalSortItems (normalizeItems src))]
            exact naturalSortItems_length (normalizeItems src)
          · exact renderAll_all_placeholder loader (clampSettings raw) none
              (dynCellWidth (clampSettings raw)).toNat 0 (naturalSortItems (normalizeItems src))
              (fun it hit => hall it ((List.mem_insertionSort ItemLe).mp hit))
    | none =>
      rw [createImageGrid_dynamic loader src raw (Or.inl hw) hne]
      by_cases hcw : dynCellWidth (clampSettings raw) < 1
      · exact Or.inl (dynamicModeResult_tooSmall loader (clampSettings raw) (normalizeItems src) hcw)
      · right
        refine ⟨_, dynamicModeResult_saved loader (clampSettings raw) (normalizeItems src) hcw hne,
          ?_, ?_⟩
        · rw [renderAll_length loader (clampSettings raw) none (dynCellWidth (clampSettings raw)).toNat 0
            (naturalSortItems (normalizeItems src))]
          exact naturalSortItems_length (normalizeItems src)
        · exact renderAll_all_placeholder loader (clampSettings raw) none
            (dynCellWidth (clampSettings raw)).toNat 0 (naturalSortItems (normalizeItems src))
            (fun it hit => hall it ((List.mem_insertionSort ItemLe).mp hit))

/-- Witness for amended claim C1 at a concrete all-failing input. -/
theorem all_failures_still_saved_witness :
    createImageGrid (fun _ => none) (.fromPaths [some "x.png"]) defaultSettings ≠ .noValidImages ∧
    (createImageGrid (fun _ => none) (.fromPaths [some "x.png"]) defaultSettings = .layoutTooSmall ∨
      ∃ g : GridCanvas,
        createImageGrid (fun _ => none) (.fromPaths [some "x.png"]) defaultSettings = .saved g ∧
        g.tiles.length = (normalizeItems (.fromPaths [some "x.png"])).length ∧
        ∀ t ∈ g.tiles, t.placeholder = true) :=
  ⟨all_failures_still_saved.1 (fun _ => none) (.fromPaths [some "x.png"]) defaultSettings,
   all_failures_still_saved.2 (fun _ => none) (.fromPaths [some "x.png"]) defaultSettings
     (by decide) (by decide)⟩

/-! ## Claim C5 -/

/-- Dynamic-mode settings with only `tileHeight` configured. -/
def dynHeightSettings : RawSettings :=
  { defaultSettings with tileHeight := some 100 }

/-- Counterexample to claim C5: with `tileHeight=100` configured but no
`tileWidth`, the mode is dynamic, yet the failed item's placeholder is
`cellWidth x tileHeight` (1322 x 100), not the square `cellWidth x
cellWidth` the claim requires (the code consults `tile_height` alone, not
the fixed-tile mode). -/
theorem placeholder_square_counterexample :
    (clampSettings dynHeightSettings).tileWidth = none ∧
    (savedCanvas? (createImageGrid (fun _ => none) (.fromPaths [some "x.png"]) dynHeightSettings)).map
        (fun g => (g.cellWidth, g.tiles.map (fun t => (t.width, t.height, t.placeholder))))
      = some (1322, [(1322, 100, true)]) ∧
    (100 : Nat) ≠ 1322 := by
  decide

/-- Claim C5 as amended: a failed item is never dropped (one tile per
item) and its placeholder measures `cellWidth x tileHeight` whenever
`tileHeight` is configured — in fixed-tile mode and also in dynamic mode —
and `cellWidth x cellWidth` only when `tileHeight` is absent. -/
theorem placeholder_tile_shape (loader : Loader) (src : ItemsSource) (raw : RawSettings)
    (g : GridCanvas) (hsav : createImageGrid loader src raw = .saved g) :
    g.tiles.length = g.items.length ∧
    g.items.length = (normalizeItems src).length ∧
    List.Forall₂ (fun (it : NormItem) (t : Tile) =>
      loadFails loader it.path = true →
        t.placeholder = true ∧ t.width = g.cellWidth ∧
          t.height = (clampSettings raw).tileHeight.getD g.cellWidth)
      g.items g.tiles := by
  by_cases hne : normalizeItems src = []
  · have hno : createImageGrid loader src raw = .noImages := by
      unfold createImageGrid
      simp [hne]
    rw [hno] at hsav
    cases hsav
  · cases hw : (clampSettings raw).tileWidth with
    | some tw =>
      cases hh : (clampSettings raw).tileHeight with
      | some th =>
        rw [(createImageGrid_fixed loader src raw tw th hw hh hne).trans
          (fixedModeResult_eq loader (clampSettings raw) (normalizeItems src) tw th hne)] at hsav
        cases hsav
        refine ⟨renderAll_length loader (clampSettings raw) (some (tw, th)) tw 0 (normalizeItems src),
          rfl, ?_⟩
        have hf := renderAll_placeholder_forall2 loader (clampSettings raw) (some (tw, th)) tw 0
          (normalizeItems src)
        rw [hh] at hf
        exact hf
      | none =>
        rw [createImageGrid_dynamic loader src raw (Or.inr hh) hne] at hsav
        by_cases hcw : dynCellWidth (clampSettings raw) < 1
        · rw [dynamicModeResult_tooSmall loader (clampSettings raw) (normalizeItems src) hcw] at hsav
          cases hsav
        · rw [dynamicModeResult_saved loader (clampSettings raw) (normalizeItems src) hcw hne] at hsav
          cases hsav
          refine ⟨?_, naturalSortItems_length (normalizeItems src), ?_⟩
          · rw [renderAll_length]
          · have hf := renderAll_placeholder_forall2 loader (clampSettings raw) none
              (dynCellWidth (clampSettings raw)).toNat 0 (naturalSortItems (normalizeItems src))
            rw [hh] at hf
            exact hf
    | none =>
      rw [createImageGrid_dynamic loader src raw (Or.inl hw) hne] at hsav
      by_cases hcw : dynCellWidth (clampSettings raw) < 1
      · rw [dynamicModeResult_tooSmall loader (clampSettings raw) (normalizeItems src) hcw] at hsav
        cases hsav
      · rw [dynamicModeResult_saved loader (clampSettings raw) (normalizeItems src) hcw hne] at hsav
        cases hsav
        refine ⟨?_, naturalSortItems_length (normalizeItems src), ?_⟩
        · rw [renderAll_length]
        · exact renderAll_placeholder_forall2 loader (clampSettings raw) none
            (dynCellWidth (clampSettings raw)).toNat 0 (naturalSortItems (normalizeItems src))

/-- Witness for amended claim C5, at a fixed-mode input with one failing
item among two. -/
theorem placeholder_tile_shape_witness :
    ∃ g : GridCanvas,
      createImageGrid (fun p => if p = "ok.png" then some (640, 480) else none)
          (.fromPaths [some "ok.png", some "bad.png"]) fixedDemoSettings = .saved g ∧
      (g.tiles.length = g.items.length ∧
        g.items.length = (normalizeItems (.fromPaths [some "ok.png", some "bad.png"])).length ∧
        List.Forall₂ (fun (it : NormItem) (t : Tile) =>
          loadFails (fun p => if p = "ok.png" then some (640, 480) else none) it.path = true →
            t.placeholder = true ∧ t.width = g.cellWidth ∧
              t.height = (clampSettings fixedDemoSettings).tileHeight.getD g.cellWidth)
          g.items g.tiles) := by
  match hg : createImageGrid (fun p => if p = "ok.png" then some (640, 480) else none)
      (.fromPaths [some "ok.png", some "bad.png"]) fixedDemoSettings with
  | .saved g =>
    exact ⟨g, rfl, placeholder_tile_shape (fun p => if p = "ok.png" then some (640, 480) else none)
      (.fromPaths [some "ok.png", some "bad.png"]) fixedDemoSettings g hg⟩
  | .noImages => exact absurd hg (by decide)
  | .layoutTooSmall => exact absurd hg (by decide)
  | .noValidImages => exact absurd hg (by decide)

/-! ## Claim C9 -/

/-- Fixed-tile settings with 209x209 tiles, where truncation and rounding
of `0.06 * 209 = 12.54` disagree. -/
def labelDemoSettings : RawSettings :=
  { defaultSettings with tileWidth := some 209, tileHeight := some 209 }

/-- Counterexample to claim C9: the code computes the font size with
`int(...)` (truncation), not `round(...)`.  For a 209x209 tile the code
yields `max(12, int(12.54)) = 12`, while the claim's formula yields
`max(12, round(12.54)) = 13`. -/
theorem label_font_size_counterexample :
    (savedCanvas? (createImageGrid (fun _ => none) (.fromPaths [some "x.png"]) labelDemoSettings)).map
        (fun g => g.tiles.map Tile.fontSize) = some [some 12] ∧
    max 12 (round ((6 * 209 : ℚ) / 100)) = 13 := by
  constructor
  · decide
  · norm_num [round_eq]

/-- Claim C9 as amended: when labels are enabled, every tile's font size is
`max(12, floor(0.06 * min(width, height)))` (truncation, not rounding) and
its margin is `max(6, floor(0.3 * fontSize))`. -/
theorem label_metrics (loader : Loader) (src : ItemsSource) (raw : RawSettings)
    (g : GridCanvas) (hsav : createImageGrid loader src raw = .saved g)
    (hlab : (clampSettings raw).addLabels = true) :
    ∀ t ∈ g.tiles,
      t.fontSize = some (tileFontSize t.width t.height) ∧
      t.margin = some (labelMargin (tileFontSize t.width t.height)) := by
  by_cases hne : normalizeItems src = []
  · have hno : createImageGrid loader src raw = .noImages := by
      unfold createImageGrid
      simp [hne]
    rw [hno] at hsav
    cases hsav
  · have main : ∀ (f : Option (Nat × Nat)) (cw : Nat) (items : List NormItem),
        ∀ t ∈ renderAll loader (clampSettings raw) f cw 0 items,
          t.fontSize = some (tileFontSize t.width t.height) ∧
          t.margin = some (labelMargin (tileFontSize t.width t.height)) := by
      intro f cw items t ht
      have hm := renderAll_metrics loader (clampSettings raw) f cw 0 items t ht
      rw [hlab] at hm
      simpa using hm
    cases hw : (clampSettings raw).tileWidth with
    | some tw =>
      cases hh : (clampSettings raw).tileHeight with
      | some th =>
        rw [(createImageGrid_fixed loader src raw tw th hw hh hne).trans
          (fixedModeResult_eq loader (clampSettings raw) (normalizeItems src) tw th hne)] at hsav
        cases hsav
        exact main (some (tw, th)) tw (normalizeItems src)
      | none =>
        rw [createImageGrid_dynamic loader src raw (Or.inr hh) hne] at hsav
        by_cases hcw : dynCellWidth (clampSettings raw) < 1
        · rw [dynamicModeResult_tooSmall loader (clampSettings raw) (normalizeItems src) hcw] at hsav
          cases hsav
        · rw [dynamicModeResult_saved loader (clampSettings raw) (normalizeItems src) hcw hne] at hsav
          cases hsav
          exact main none (dynCellWidth (clampSettings raw)).toNat
            (naturalSortItems (normalizeItems src))
    | none =>
      rw [createImageGrid_dynamic loader src raw (Or.inl hw) hne] at hsav
      by_cases hcw : dynCellWidth (clampSettings raw) < 1
      · rw [dynamicModeResult_tooSmall loader (clampSettings raw) (normalizeItems src) hcw] at hsav
        cases hsav
      · rw [dynamicModeResult_saved loader (clampSettings raw) (normalizeItems src) hcw hne] at hsav
        cases hsav
        exact main none (dynCellWidth (clampSettings raw)).toNat
          (naturalSortItems (normalizeItems src))

/-- Witness for amended claim C9 at the 209x209 configuration. -/
theorem label_metrics_witness :
    ∃ g : GridCanvas,
      createImageGrid (fun _ => none) (.fromPaths [some "x.png"]) labelDemoSettings = .saved g ∧
      ∀ t ∈ g.tiles,
        t.fontSize = some (tileFontSize t.width t.height) ∧
        t.margin = some (labelMargin (tileFontSize t.width t.height)) := by
  match hg : createImageGrid (fun _ => none) (.fromPaths [some "x.png"]) labelDemoSettings with
  | .saved g =>
    exact ⟨g, rfl, label_metrics (fun _ => none) (.fromPaths [some "x.png"]) labelDemoSettings g hg
      (by decide)⟩
  | .noImages => exact absurd hg (by decide)
  | .layoutTooSmall => exact absurd hg (by decide)
  | .noValidImages => exact absurd hg (by decide)

/-! ## Claim C2 -/

/-- Fixed-tile settings with a custom tile prefix. -/
def prefixDemoSettings : RawSettings :=
  { fixedDemoSettings with tilePrefix := "CUT" }

/-- Counterexample to claim C2: with the configured tile prefix "CUT", a
structured item with a missing label is normalized (and rendered) with the
hard-coded default "SHOT 1", not "CUT 1" — `_normalize_items` never
consults `tilePrefix`. -/
theorem default_label_counterexample :
    (clampSettings prefixDemoSettings).tilePrefix = "CUT" ∧
    (normalizeItems (.fromData [.record (some "a.png") none])).map NormItem.label = ["SHOT 1"] ∧
    ("SHOT 1" : String) ≠ "CUT 1" ∧
    (savedCanvas? (createImageGrid (fun _ => none)
        (.fromData [.record (some "a.png") none]) prefixDemoSettings)).map
      (fun g => g.tiles.map Tile.labelText) = some ["SHOT 1"] := by
  decide

theorem normalizeItemsAux_getD :
    ∀ (items : List RawItem) (start idx : Nat), idx < items.length →
      (normalizeItemsAux start items).getD idx ⟨"", ""⟩
        = normalizeItem (start + idx) (items.getD idx (.plain none)) := by
  intro items
  induction items with
  | nil => intro start idx h; simp at h
  | cons it rest ih =>
    intro start idx h
    cases idx with
    | zero => simp [normalizeItemsAux]
    | succ j =>
      simp only [normalizeItemsAux, List.getD_cons_succ]
      have hrec := ih (start + 1) j (by simpa using h)
      rw [hrec]
      congr 1
      omega

/-- Claim C2 as amended: a structured item whose label is missing or the
empty string is normalized with the hard-coded default label
`"SHOT {1-based index}"`, regardless of the configured tile prefix. -/
theorem default_label_amended (items : List RawItem) (idx : Nat) (p l : Option String)
    (hl : l = none ∨ l = some "") (hidx : idx < items.length)
    (hit : items.getD idx (.plain none) = .record p l) :
    ((normalizeItems (.fromData items)).getD idx ⟨"", ""⟩).label
      = "SHOT " ++ toString (idx + 1) := by
  show ((normalizeItemsAux 0 items).getD idx ⟨"", ""⟩).label = _
  rw [normalizeItemsAux_getD items 0 idx hidx, hit, Nat.zero_add]
  rcases hl with h | h
  · subst h
    rfl
  · subst h
    rfl

/-- Witness for amended claim C2 at index 0. -/
theorem default_label_amended_witness :
    ((normalizeItems (.fromData [.record (some "a.png") none])).getD 0 ⟨"", ""⟩).label
      = "SHOT " ++ toString (0 + 1) :=
  default_label_amended [.record (some "a.png") none] 0 (some "a.png") none
    (Or.inl rfl) (by decide) (by decide)

/-! ## Claim C8 -/

/-- Claim C8: hex colour parsing maps "#fff" to opaque white and "5079a5"
to (80,121,165,255); it returns the supplied fallback for "zzz", for a
non-string input, and for every string whose stripped text (whitespace
trimmed, leading "#" removed) has length neither 3 nor 6. -/
theorem hex_parsing :
    (∀ fb : RGBA, parseHexColor (some "#fff") fb = (255, 255, 255, 255)) ∧
    (∀ fb : RGBA, parseHexColor (some "5079a5") fb = (80, 121, 165, 255)) ∧
    (∀ fb : RGBA, parseHexColor (some "zzz") fb = fb) ∧
    (∀ fb : RGBA, parseHexColor none fb = fb) ∧
    (∀ (s : String) (fb : RGBA),
      ((pyStrip s.toList).dropWhile (fun c => c = '#')).length ≠ 3 →
      ((pyStrip s.toList).dropWhile (fun c => c = '#')).length ≠ 6 →
      parseHexColor (some s) fb = fb) := by
  refine ⟨fun fb => rfl, fun fb => rfl, fun fb => rfl, fun fb => rfl, ?_⟩
  intro s fb h3 h6
  simp only [parseHexColor]
  rw [if_neg h3, if_pos h6]

/-- Witness for C8, including a stripped length of 4. -/
theorem hex_parsing_witness :
    parseHexColor (some "#fff") (9, 9, 9, 9) = (255, 255, 255, 255) ∧
    parseHexColor (some "5079a5") (9, 9, 9, 9) = (80, 121, 165, 255) ∧
    parseHexColor (some "zzz") (1, 2, 3, 4) = (1, 2, 3, 4) ∧
    parseHexColor none (1, 2, 3, 4) = (1, 2, 3, 4) ∧
    parseHexColor (some "#abcd") (1, 2, 3, 4) = (1, 2, 3, 4) :=
  ⟨hex_parsing.1 (9, 9, 9, 9), hex_parsing.2.1 (9, 9, 9, 9), hex_parsing.2.2.1 (1, 2, 3, 4),
   hex_parsing.2.2.2.1 (1, 2, 3, 4),
   hex_parsing.2.2.2.2 "#abcd" (1, 2, 3, 4) (by decide) (by decide)⟩

end StoryBoarder
